import Mathlib

/-!
Shallow embedding of the read/write database-routing core of the demo-ha
backend (src/config/database.ts, src/lib/auth.ts, src/middleware/auth.ts,
src/routes/posts.ts, src/index.ts), together with theorems settling the
specification claims about pool selection, health probing, shutdown,
TLS configuration and session verification.
-/

namespace DemoHA

/-- The process environment variables read by the database and auth modules.
`none` models an unset variable. -/
structure Env where
  dbSslEnabled : Option String
  dbPrimaryHost : Option String
  dbPrimaryPort : Option String
  dbReplicaHost : Option String
  dbReplicaPort : Option String
  dbName : Option String
  dbUser : Option String
  dbPassword : Option String
deriving DecidableEq

/-- JavaScript string defaulting `x || d`: unset and the empty string are falsy. -/
def strOr : Option String → String → String
  | none, d => d
  | some v, d => if v = "" then d else v

/-- Decimal parse of a character list: the accumulated value, or none on a
non-digit. -/
def parseNatAux : List Char → Nat → Option Nat
  | [], acc => some acc
  | c :: cs, acc =>
    if c.isDigit then parseNatAux cs (acc * 10 + (c.toNat - 48)) else none

/-- Decimal parse of a string, none when empty or non-numeric. -/
def parseNat (s : String) : Option Nat :=
  match s.data with
  | [] => none
  | l => parseNatAux l 0

/-- JavaScript numeric defaulting `Number(x) || d`: unset, non-numeric and
zero all fall back to the default. -/
def numOr : Option String → Nat → Nat
  | none, d => d
  | some v, d =>
    match parseNat v with
    | none => d
    | some n => if n = 0 then d else n

/-- DatabaseConfig (database.ts lines 8-17): connection data with optional
pool-size and timeout fields. -/
structure DatabaseConfig where
  host : String
  port : Nat
  database : String
  user : String
  password : String
  max : Option Nat
  idleTimeoutMillis : Option Nat
  connectionTimeoutMillis : Option Nat
deriving DecidableEq

/-- The ssl field passed to the pg Pool constructor: either `false` (TLS off)
or an object with rejectUnauthorized set to false (TLS on, certificate
authority validation disabled, self-signed certificates accepted). -/
inductive SslSetting where
  | off
  | noRejectUnauthorized
deriving DecidableEq

/-- The record handed to the pg Pool constructor (all defaults resolved). -/
structure PoolConfig where
  host : String
  port : Nat
  database : String
  user : String
  password : String
  max : Nat
  idleTimeoutMillis : Nat
  connectionTimeoutMillis : Nat
  ssl : SslSetting
deriving DecidableEq

/-- The PoolConfig record built inside createPool (database.ts lines 23-36):
defaults applied to the optional fields, ssl derived from the process-wide
DB_SSL_ENABLED environment variable. -/
def mkPoolConfig (env : Env) (config : DatabaseConfig) : PoolConfig where
  host := config.host
  port := config.port
  database := config.database
  user := config.user
  password := config.password
  max := config.max.getD 20
  idleTimeoutMillis := config.idleTimeoutMillis.getD 30000
  connectionTimeoutMillis := config.connectionTimeoutMillis.getD 5000
  ssl := if env.dbSslEnabled = some "true" then .noRejectUnauthorized else .off

/-- A pg connection pool object: its configuration plus an allocation
identity distinguishing separately constructed pools. -/
structure Pool where
  id : Nat
  config : PoolConfig
deriving DecidableEq

/-- `new Pool(poolConfig)`: allocates a fresh pool object with the next
free identity. -/
def newPool (cfg : PoolConfig) (fresh : Nat) : Pool × Nat :=
  (⟨fresh, cfg⟩, fresh + 1)

/-- createPool (database.ts lines 22-39): builds the PoolConfig and
allocates a new Pool from it. -/
def createPool (env : Env) (config : DatabaseConfig) (fresh : Nat) : Pool × Nat :=
  newPool (mkPoolConfig env config) fresh

/-- primaryConfig (database.ts lines 44-50). -/
def primaryConfig (env : Env) : DatabaseConfig where
  host := strOr env.dbPrimaryHost "10.100.0.20"
  port := numOr env.dbPrimaryPort 5000
  database := strOr env.dbName "demo_db"
  user := strOr env.dbUser "postgres"
  password := strOr env.dbPassword ""
  max := none
  idleTimeoutMillis := none
  connectionTimeoutMillis := none

/-- replicaConfig (database.ts lines 55-61). -/
def replicaConfig (env : Env) : DatabaseConfig where
  host := strOr env.dbReplicaHost "10.100.0.20"
  port := numOr env.dbReplicaPort 5001
  database := strOr env.dbName "demo_db"
  user := strOr env.dbUser "postgres"
  password := strOr env.dbPassword ""
  max := none
  idleTimeoutMillis := none
  connectionTimeoutMillis := none

/-- Module initialization (database.ts line 64): the first pool allocated. -/
def primaryPool (env : Env) : Pool :=
  (createPool env (primaryConfig env) 0).1

/-- The allocation counter after the primary pool is constructed. -/
def counterAfterPrimary (env : Env) : Nat :=
  (createPool env (primaryConfig env) 0).2

/-- Module initialization (database.ts line 65): the second pool allocated. -/
def replicaPool (env : Env) : Pool :=
  (createPool env (replicaConfig env) (counterAfterPrimary env)).1

/-- A Drizzle database instance wrapping one pool (database.ts lines 68-69). -/
structure Db where
  pool : Pool
deriving DecidableEq

/-- dbPrimary (database.ts line 68). -/
def dbPrimary (env : Env) : Db := ⟨primaryPool env⟩

/-- dbReplica (database.ts line 69). -/
def dbReplica (env : Env) : Db := ⟨replicaPool env⟩

/-- getDatabase (database.ts lines 122-124): the pool selector. -/
def getDatabase (env : Env) (isWrite : Bool) : Db :=
  if isWrite then dbPrimary env else dbReplica env

/-- Which pool a health probe targets. -/
inductive PoolSel where
  | primary
  | replica
deriving DecidableEq

/-- The result record of checkDatabaseHealth (database.ts lines 74-81). -/
structure HealthReport where
  primary : Bool
  replica : Bool
deriving DecidableEq

/-- checkDatabaseHealth (database.ts lines 74-98), with the outcome of each
SELECT 1 probe supplied by the environment as an Except value. Each probe is
run inside its own try block: success sets the flag to true, a thrown error
is logged and swallowed, and the second probe runs regardless of the first.
The returned list records the probes attempted, in program order. -/
def checkDatabaseHealthTr (primaryProbe replicaProbe : Except String Unit) :
    HealthReport × List PoolSel :=
  let primaryFlag :=
    match primaryProbe with
    | .ok _ => true
    | .error _ => false
  let replicaFlag :=
    match replicaProbe with
    | .ok _ => true
    | .error _ => false
  (⟨primaryFlag, replicaFlag⟩, [.primary, .replica])

/-- The health report alone (the value returned to the caller). -/
def checkDatabaseHealth (primaryProbe replicaProbe : Except String Unit) :
    HealthReport :=
  (checkDatabaseHealthTr primaryProbe replicaProbe).1

/-- Outcome of one `pool.end()` call, supplied by the environment. -/
inductive EndOutcome where
  | ok
  | fail (msg : String)
deriving DecidableEq

/-- Promise.all over the two end() promises (database.ts lines 107-110):
fulfils when both fulfil; rejects with the rejection that settles first.
primaryFirst says which of the two promises settles first in time. -/
def promiseAll2 (p r : EndOutcome) (primaryFirst : Bool) : Except String Unit :=
  match p, r with
  | .ok, .ok => .ok ()
  | .fail e, .ok => .error e
  | .ok, .fail e => .error e
  | .fail ep, .fail er => .error (if primaryFirst then ep else er)

/-- closeDatabaseConnections (database.ts lines 103-116): awaits both end()
calls via Promise.all; a caught error is logged once and rethrown. Returns
the outcome propagated to the caller and the list of error messages
reported (logged) on the way. -/
def closeDatabaseConnections (p r : EndOutcome) (primaryFirst : Bool) :
    Except String Unit × List String :=
  match promiseAll2 p r primaryFirst with
  | .ok _ => (.ok (), [])
  | .error e => (.error e, [e])

/-- Lifecycle of one pg pool: live until end() is called, ended afterwards. -/
inductive PoolLife where
  | live
  | ended
deriving DecidableEq

/-- Lifecycle state of the database module: the two pool singletons. -/
structure ProcState where
  primaryLife : PoolLife
  replicaLife : PoolLife
deriving DecidableEq

/-- Calls the registry exposes after module load. -/
inductive Op where
  | close
  | select (isWrite : Bool)

/-- What one call observably returns. -/
inductive Obs where
  | done
  | pool (d : Db)
  | rejected (msg : String)
deriving DecidableEq

/-- One call against the database module. closeDatabaseConnections ends both
pools; getDatabase (database.ts lines 122-124) consults no lifecycle state
and unconditionally returns the module singleton for the flag — the source
contains no check that could produce a rejection. -/
def step (env : Env) (s : ProcState) : Op → ProcState × Obs
  | .close => (⟨.ended, .ended⟩, .done)
  | .select w => (s, .pool (getDatabase env w))

/-- The JSON envelope and status code produced by a handler. -/
structure Response where
  status : Nat
  success : Bool
deriving DecidableEq

/-- A handler run: the Drizzle instances used by its statements, in order,
plus the response. -/
structure HandlerRun where
  statements : List Db
  response : Response
deriving DecidableEq

/-- PATCH /posts/:id (posts.ts lines 208-284): statement 1 selects the
authorId through dbPrimary; on not-found the handler answers 404, on a
foreign author 403; otherwise statement 2 updates through dbPrimary and the
handler answers with the default 200 status. existingAuthor is the result
of the select, userId the authenticated user id. -/
def patchPostHandler (env : Env) (existingAuthor : Option String)
    (userId : String) : HandlerRun :=
  match existingAuthor with
  | none => ⟨[dbPrimary env], ⟨404, false⟩⟩
  | some authorId =>
    if authorId ≠ userId then ⟨[dbPrimary env], ⟨403, false⟩⟩
    else ⟨[dbPrimary env, dbPrimary env], ⟨200, true⟩⟩

/-- DELETE /posts/:id (posts.ts lines 290-335): same shape as the PATCH
handler — select authorId through dbPrimary, then delete through dbPrimary. -/
def deletePostHandler (env : Env) (existingAuthor : Option String)
    (userId : String) : HandlerRun :=
  match existingAuthor with
  | none => ⟨[dbPrimary env], ⟨404, false⟩⟩
  | some authorId =>
    if authorId ≠ userId then ⟨[dbPrimary env], ⟨403, false⟩⟩
    else ⟨[dbPrimary env, dbPrimary env], ⟨200, true⟩⟩

/-- The database instance handed to the Better-Auth drizzleAdapter
(src/lib/auth.ts line 11): dbPrimary. -/
def authAdapterDb (env : Env) : Db := dbPrimary env

/-- The response of the GET /health handler (src/index.ts lines 31-54 of the
excerpt): status code, success flag, status text and per-pool detail. -/
structure HealthResponse where
  statusCode : Nat
  success : Bool
  statusText : String
  databasePrimary : String
  databaseReplica : String
deriving DecidableEq

/-- GET /health handler applied to a health report: healthy exactly when
both flags are true; 200 when healthy, 503 otherwise; per-pool detail
strings reflect each flag. -/
def healthHandler (dbHealth : HealthReport) : HealthResponse :=
  let isHealthy := dbHealth.primary && dbHealth.replica
  { statusCode := if isHealthy then 200 else 503
    success := isHealthy
    statusText := if isHealthy then "healthy" else "unhealthy"
    databasePrimary := if dbHealth.primary then "connected" else "disconnected"
    databaseReplica := if dbHealth.replica then "connected" else "disconnected" }

/-- The full health endpoint: probe both pools, then shape the response. -/
def healthEndpoint (primaryProbe replicaProbe : Except String Unit) :
    HealthResponse :=
  healthHandler (checkDatabaseHealth primaryProbe replicaProbe)

/-- An authenticated user as surfaced by Better-Auth. -/
structure User where
  id : String
deriving DecidableEq

/-- A session as surfaced by auth.api.getSession. -/
structure Session where
  user : User
deriving DecidableEq

/-- The possible behaviours of the auth.api.getSession call for one header
map: it may throw, resolve to null, or resolve to a session. -/
inductive GetSessionOutcome where
  | throws (msg : String)
  | noSession
  | found (s : Session)
deriving DecidableEq

/-- verifySession (src/lib/auth.ts lines 66-81): calls getSession on the
header map inside a try block; a thrown error is caught, logged and turned
into null; a null session is returned as null. Total: never throws. -/
def verifySession (getSession : List (String × String) → GetSessionOutcome)
    (headers : List (String × String)) : Option Session :=
  match getSession headers with
  | .throws _ => none
  | .noSession => none
  | .found s => some s

/-- getUserFromSession (src/lib/auth.ts lines 86-89): the session user, or
null when verification produced null. -/
def getUserFromSession (getSession : List (String × String) → GetSessionOutcome)
    (headers : List (String × String)) : Option User :=
  match verifySession getSession headers with
  | some s => some s.user
  | none => none

/-- The two request headers the middleware inspects. -/
structure RequestHeaders where
  authorization : Option String
  cookie : Option String
deriving DecidableEq

/-- Header extraction in authMiddleware (middleware/auth.ts lines 19-31):
copies the authorization and cookie headers, when present, into the map
handed to getUserFromSession. -/
def extractHeaders (r : RequestHeaders) : List (String × String) :=
  (match r.authorization with
   | some a => [("authorization", a)]
   | none => []) ++
  (match r.cookie with
   | some c => [("cookie", c)]
   | none => [])

/-- Result of running the auth middleware: either a context carrying the
user, or an UnauthorizedError thrown to the route error handler. -/
inductive MiddlewareResult where
  | ctx (u : User)
  | unauthorizedErr (msg : String)
deriving DecidableEq

/-- authMiddleware (middleware/auth.ts lines 18-44): extracts the headers,
resolves the user, and throws UnauthorizedError when the user is null. -/
def authMiddleware (getSession : List (String × String) → GetSessionOutcome)
    (r : RequestHeaders) : MiddlewareResult :=
  match getUserFromSession getSession (extractHeaders r) with
  | none => .unauthorizedErr "Authentication required"
  | some u => .ctx u

/-- The errors the post-route onError handler distinguishes. -/
inductive RouteError where
  | unauthorizedErr (msg : String)
  | validation (msg : String)
  | notFound
  | internal
deriving DecidableEq

/-- onError of postRoutes (posts.ts lines 349-380): UnauthorizedError maps
to 401, validation to 400, not-found to 404, everything else to 500. -/
def postsOnErrorStatus : RouteError → Nat
  | .unauthorizedErr _ => 401
  | .validation _ => 400
  | .notFound => 404
  | .internal => 500

/-- Status of a protected post route for a given request: the middleware
runs first; a thrown UnauthorizedError reaches the onError handler, and
otherwise the handler itself decides the status. -/
def protectedRouteStatus (getSession : List (String × String) → GetSessionOutcome)
    (r : RequestHeaders) (handlerStatus : Nat) : Nat :=
  match authMiddleware getSession r with
  | .unauthorizedErr m => postsOnErrorStatus (.unauthorizedErr m)
  | .ctx _ => handlerStatus

/-- An environment with every variable unset (all defaults in force). -/
def env0 : Env :=
  ⟨none, none, none, none, none, none, none, none⟩

/-- An environment with only DB_SSL_ENABLED set to true. -/
def envSslOn : Env :=
  ⟨some "true", none, none, none, none, none, none, none⟩

/-- A sample connection config with every optional field absent. -/
def cfgNone : DatabaseConfig :=
  ⟨"10.100.0.20", 5000, "demo_db", "postgres", "", none, none, none⟩

/-- A sample connection config with every optional field supplied. -/
def cfgSome : DatabaseConfig :=
  ⟨"10.100.0.20", 5000, "demo_db", "postgres", "", some 7, some 11, some 13⟩

/-- An environment in which the replica port is set to the primary default,
so both connection configs resolve to the same host and port. -/
def envSameEndpoint : Env :=
  ⟨none, none, none, none, some "5000", none, none, none⟩

/-- C1: getDatabase returns dbPrimary when isWrite is true and dbReplica when
it is false; it is a pure total function, so repeated select calls on a live
registry observe the same pool each time (the registry state is unchanged
and the observation is reproduced). -/
theorem getDatabase_selects_by_flag (env : Env) (s : ProcState) (b : Bool) :
    getDatabase env true = dbPrimary env ∧
    getDatabase env false = dbReplica env ∧
    (step env s (.select b)).2 =
      (step env (step env s (.select b)).1 (.select b)).2 := by
  exact ⟨rfl, rfl, rfl⟩

/-- C3: checkDatabaseHealth always attempts both probes in order, never
throws (it is total into HealthReport), and each flag reflects only its own
probe outcome — in particular a failing primary probe with a healthy replica
yields the report with primary false and replica true. -/
theorem checkDatabaseHealth_probe_independence (pp rp : Except String Unit) :
    (checkDatabaseHealthTr pp rp).2 = [PoolSel.primary, PoolSel.replica] ∧
    (checkDatabaseHealth pp rp).primary = pp.isOk ∧
    (checkDatabaseHealth pp rp).replica = rp.isOk ∧
    checkDatabaseHealth (Except.error "probe failed") (Except.ok ()) =
      ⟨false, true⟩ := by
  refine ⟨rfl, ?_, ?_, rfl⟩
  · cases pp <;> rfl
  · cases rp <;> rfl

/-- C5 counterexample: on the default environment, running shutdown and then
select true is not rejected — the registry state is terminal (both pools
ended) yet the select call still hands back the dbPrimary instance. -/
theorem select_after_shutdown_not_rejected :
    (step env0 (step env0 ⟨.live, .live⟩ .close).1 (.select true)).2 =
      .pool (dbPrimary env0) ∧
    (step env0 ⟨.live, .live⟩ .close).1 = ⟨.ended, .ended⟩ := by
  exact ⟨rfl, rfl⟩

/-- C5 amended: the registry does follow Live to Closed with no transition
back — the closed state is preserved by every subsequent operation — but
getDatabase performs no lifecycle check: in every state, a select call
returns the module pool instance and is never rejected as a logic error. -/
theorem registry_closed_terminal_select_unchecked
    (env : Env) (s : ProcState) (op : Op) (w : Bool) :
    (step env ⟨.ended, .ended⟩ op).1 = ⟨.ended, .ended⟩ ∧
    (step env s (.select w)).2 = .pool (getDatabase env w) := by
  cases op <;> exact ⟨rfl, rfl⟩

/-- C6: select true and select false return distinct database instances —
their pools carry different allocation identities — for every environment,
including environments (such as envSameEndpoint) in which the two
connection configs resolve to the same host and port. -/
theorem pools_distinct (env : Env) :
    getDatabase env true ≠ getDatabase env false ∧
    (primaryPool env).id ≠ (replicaPool env).id ∧
    (primaryConfig envSameEndpoint).host = (replicaConfig envSameEndpoint).host ∧
    (primaryConfig envSameEndpoint).port = (replicaConfig envSameEndpoint).port ∧
    dbPrimary envSameEndpoint ≠ dbReplica envSameEndpoint := by
  have hid : (primaryPool env).id = 0 := rfl
  have rid : (replicaPool env).id = 1 := rfl
  refine ⟨?_, ?_, by decide, by decide, by decide⟩
  · intro h
    have h2 := congrArg (fun d => d.pool.id) h
    simp only [getDatabase, if_true, Bool.false_eq_true, if_false,
      dbPrimary, dbReplica] at h2
    rw [hid, rid] at h2
    exact absurd h2 (by decide)
  · rw [hid, rid]
    decide

/-- C2: every statement of the multi-statement PATCH and DELETE post
handlers, in every branch, runs against the pool obtained by selecting the
writable database, and the Better-Auth adapter is likewise constructed on
that pool — the pool is constant within each sequence and never the
replica. -/
theorem multi_statement_primary_pinned (env : Env) (existingAuthor : Option String)
    (userId : String) :
    (∀ d ∈ (patchPostHandler env existingAuthor userId).statements,
      d = getDatabase env true) ∧
    (∀ d ∈ (deletePostHandler env existingAuthor userId).statements,
      d = getDatabase env true) ∧
    authAdapterDb env = getDatabase env true := by
  have hsel : getDatabase env true = dbPrimary env := rfl
  refine ⟨?_, ?_, rfl⟩ <;>
  · intro d hd
    cases existingAuthor with
    | none =>
      simp only [patchPostHandler, deletePostHandler, List.mem_singleton] at hd
      rw [hd, hsel]
    | some authorId =>
      by_cases hau : authorId = userId
      · simp only [patchPostHandler, deletePostHandler, hau, ne_eq,
          not_true_eq_false, if_false, List.mem_cons, List.mem_singleton,
          List.not_mem_nil, or_false] at hd
        rcases hd with h | h <;> rw [h, hsel]
      · simp only [patchPostHandler, deletePostHandler, ne_eq, hau,
          not_false_eq_true, if_true, List.mem_singleton] at hd
        rw [hd, hsel]

/-- C2 witness: on the default environment with a matching author, the
statements of the PATCH handler indeed run on the selected writable pool. -/
theorem multi_statement_primary_pinned_witness :
    dbPrimary env0 = getDatabase env0 true :=
  (multi_statement_primary_pinned env0 (some "u1") "u1").1 (dbPrimary env0)
    (by simp [patchPostHandler])

/-- C4 counterexample: when both end() calls fail, only the rejection that
settles first is reported and propagated; the other error message appears
nowhere, in either settlement order — so it is false that both errors are
reported. -/
theorem close_drops_second_error :
    (closeDatabaseConnections (.fail "primary end failed")
        (.fail "replica end failed") true).2 = ["primary end failed"] ∧
    (closeDatabaseConnections (.fail "primary end failed")
        (.fail "replica end failed") false).2 = ["replica end failed"] ∧
    "replica end failed" ∉ (closeDatabaseConnections (.fail "primary end failed")
        (.fail "replica end failed") true).2 ∧
    "primary end failed" ∉ (closeDatabaseConnections (.fail "primary end failed")
        (.fail "replica end failed") false).2 := by
  refine ⟨rfl, rfl, by decide, by decide⟩

/-- C4 amended: a failure closing a pool is always propagated to the caller
and never silently swallowed, but when both pools fail to close only one
error — the first to settle — is reported and propagated; the other is
dropped. -/
theorem close_propagates_first_error (p r : EndOutcome) (primaryFirst : Bool) :
    ((closeDatabaseConnections p r primaryFirst).1 = .ok () ↔
      p = .ok ∧ r = .ok) ∧
    (closeDatabaseConnections p r primaryFirst).2.length ≤ 1 ∧
    (∀ e, (closeDatabaseConnections p r primaryFirst).1 = .error e →
      (closeDatabaseConnections p r primaryFirst).2 = [e] ∧
        (p = .fail e ∨ r = .fail e)) := by
  cases p <;> cases r <;> cases primaryFirst <;>
    simp [closeDatabaseConnections, promiseAll2]

/-- C4 amended witness: a clean close propagates success, and a primary-only
failure is reported to the caller. -/
theorem close_propagates_first_error_witness :
    (closeDatabaseConnections .ok .ok true).1 = .ok () ∧
    (closeDatabaseConnections (.fail "boom") .ok true).2 = ["boom"] :=
  ⟨(close_propagates_first_error .ok .ok true).1.mpr ⟨rfl, rfl⟩,
   ((close_propagates_first_error (.fail "boom") .ok true).2.2 "boom" rfl).1⟩

/-- C7 counterexample: the TLS setting of a built pool is not derived from
the pool configuration record. The primary pool of the module has the very
same DatabaseConfig record under env0 and under envSslOn (the two
environments differ only in DB_SSL_ENABLED), yet the built pool has
certificate-authority validation disabled under one and TLS off under the
other; likewise for an explicit config, so no function of the config record
alone gives the built TLS policy (DatabaseConfig has no TLS field at all). -/
theorem tls_not_from_pool_config :
    primaryConfig envSslOn = primaryConfig env0 ∧
    (primaryPool envSslOn).config.ssl = .noRejectUnauthorized ∧
    (primaryPool env0).config.ssl = .off ∧
    (mkPoolConfig envSslOn cfgNone).ssl = .noRejectUnauthorized ∧
    (mkPoolConfig env0 cfgNone).ssl = .off ∧
    ¬ ∃ f : DatabaseConfig → SslSetting,
        ∀ (env : Env) (c : DatabaseConfig), (mkPoolConfig env c).ssl = f c := by
  refine ⟨by decide, by decide, by decide, by decide, by decide, ?_⟩
  rintro ⟨f, hf⟩
  have h2 := (hf envSslOn cfgNone).trans (hf env0 cfgNone).symm
  exact absurd h2 (by decide)

/-- C7 amended: createPool derives the TLS policy from the process-wide
DB_SSL_ENABLED environment variable, identically for both pools and
independently of the per-pool configuration record: when the variable is the
string true, certificate-authority validation is disabled (self-signed
certificates accepted); otherwise TLS is off. -/
theorem tls_from_global_env (env : Env) (c c2 : DatabaseConfig) :
    (mkPoolConfig env c).ssl = (mkPoolConfig env c2).ssl ∧
    (env.dbSslEnabled = some "true" →
      (mkPoolConfig env c).ssl = .noRejectUnauthorized) ∧
    (env.dbSslEnabled ≠ some "true" → (mkPoolConfig env c).ssl = .off) ∧
    (primaryPool env).config.ssl = (replicaPool env).config.ssl := by
  refine ⟨rfl, ?_, ?_, rfl⟩
  · intro h
    simp [mkPoolConfig, h]
  · intro h
    simp [mkPoolConfig, h]

/-- C7 amended witness: the two global settings at a concrete config. -/
theorem tls_from_global_env_witness :
    (mkPoolConfig envSslOn cfgNone).ssl = SslSetting.noRejectUnauthorized ∧
    (mkPoolConfig env0 cfgNone).ssl = SslSetting.off :=
  ⟨(tls_from_global_env envSslOn cfgNone cfgNone).2.1 rfl,
   (tls_from_global_env env0 cfgNone cfgNone).2.2.1 (by decide)⟩

/-- C8: the health endpoint reports overall success with status 200 exactly
when both probe flags are true; otherwise it answers 503, and in every case
the per-pool detail string reflects that pool flag alone. -/
theorem health_endpoint_healthy_iff (r : HealthReport) :
    ((healthHandler r).statusCode = 200 ∧ (healthHandler r).success = true ↔
      r.primary = true ∧ r.replica = true) ∧
    (¬(r.primary = true ∧ r.replica = true) →
      (healthHandler r).statusCode = 503) ∧
    (healthHandler r).databasePrimary =
      (if r.primary then "connected" else "disconnected") ∧
    (healthHandler r).databaseReplica =
      (if r.replica then "connected" else "disconnected") := by
  rcases r with ⟨p, q⟩
  cases p <;> cases q <;> decide

/-- C8 witness: a failed primary with a healthy replica yields 503. -/
theorem health_endpoint_healthy_iff_witness :
    (healthHandler ⟨false, true⟩).statusCode = 503 :=
  (health_endpoint_healthy_iff ⟨false, true⟩).2.1 (by decide)

/-- C9: session verification never throws at the public interface — for any
header map, a thrown getSession error is caught and yields a null user —
and a protected post route whose session is missing or invalid answers 401
through UnauthorizedError, never an unhandled 500. -/
theorem session_errors_yield_401
    (getSession : List (String × String) → GetSessionOutcome)
    (r : RequestHeaders) (handlerStatus : Nat) :
    (∀ e, getSession (extractHeaders r) = .throws e →
      getUserFromSession getSession (extractHeaders r) = none) ∧
    (getUserFromSession getSession (extractHeaders r) = none →
      protectedRouteStatus getSession r handlerStatus = 401) := by
  constructor
  · intro e he
    simp [getUserFromSession, verifySession, he]
  · intro hn
    simp [protectedRouteStatus, authMiddleware, hn, postsOnErrorStatus]

/-- A getSession oracle that always throws. -/
def gThrows : List (String × String) → GetSessionOutcome :=
  fun _ => .throws "boom"

/-- C9 witness: a request with no credentials against a throwing getSession
resolves to a null user and a 401 response. -/
theorem session_errors_yield_401_witness :
    getUserFromSession gThrows (extractHeaders ⟨none, none⟩) = none ∧
    protectedRouteStatus gThrows ⟨none, none⟩ 200 = 401 :=
  ⟨(session_errors_yield_401 gThrows ⟨none, none⟩ 200).1 "boom" rfl,
   (session_errors_yield_401 gThrows ⟨none, none⟩ 200).2
     ((session_errors_yield_401 gThrows ⟨none, none⟩ 200).1 "boom" rfl)⟩

/-- C10: createPool defaults max to 20 connections, idleTimeoutMillis to
30000 and connectionTimeoutMillis to 5000 when the field is absent, and
passes explicitly supplied values through unchanged. -/
theorem createPool_defaults (env : Env) (c : DatabaseConfig) :
    (c.max = none → (mkPoolConfig env c).max = 20) ∧
    (∀ v, c.max = some v → (mkPoolConfig env c).max = v) ∧
    (c.idleTimeoutMillis = none →
      (mkPoolConfig env c).idleTimeoutMillis = 30000) ∧
    (∀ v, c.idleTimeoutMillis = some v →
      (mkPoolConfig env c).idleTimeoutMillis = v) ∧
    (c.connectionTimeoutMillis = none →
      (mkPoolConfig env c).connectionTimeoutMillis = 5000) ∧
    (∀ v, c.connectionTimeoutMillis = some v →
      (mkPoolConfig env c).connectionTimeoutMillis = v) :=
  ⟨fun h => by simp [mkPoolConfig, h],
   fun v h => by simp [mkPoolConfig, h],
   fun h => by simp [mkPoolConfig, h],
   fun v h => by simp [mkPoolConfig, h],
   fun h => by simp [mkPoolConfig, h],
   fun v h => by simp [mkPoolConfig, h]⟩

/-- C10 witness: defaults on an all-absent config, pass-through on an
all-supplied config. -/
theorem createPool_defaults_witness :
    (mkPoolConfig env0 cfgNone).max = 20 ∧
    (mkPoolConfig env0 cfgSome).max = 7 ∧
    (mkPoolConfig env0 cfgNone).idleTimeoutMillis = 30000 ∧
    (mkPoolConfig env0 cfgSome).idleTimeoutMillis = 11 ∧
    (mkPoolConfig env0 cfgNone).connectionTimeoutMillis = 5000 ∧
    (mkPoolConfig env0 cfgSome).connectionTimeoutMillis = 13 :=
  ⟨(createPool_defaults env0 cfgNone).1 rfl,
   (createPool_defaults env0 cfgSome).2.1 7 rfl,
   (createPool_defaults env0 cfgNone).2.2.1 rfl,
   (createPool_defaults env0 cfgSome).2.2.2.1 11 rfl,
   (createPool_defaults env0 cfgNone).2.2.2.2.1 rfl,
   (createPool_defaults env0 cfgSome).2.2.2.2.2 13 rfl⟩

end DemoHA
